import Mathlib

/-!
Shallow embedding of the core logging pipeline of `winston_rs`
(`src/logger.rs`, `src/logger_options.rs`, `src/logger_levels.rs`,
`src/logger_transport.rs`).  Pure data is translated directly; the
side-effecting parts (transport `log` calls, the bounded channel, the
flush barrier) are made explicit: dispatch is modelled as the list of
`(handle, record)` deliveries the worker performs, and the channel as a
bounded FIFO list.
-/

namespace Winston

/-- A log record (`logform::LogInfo`): level name, message and a metadata
map, modelled as an association list. -/
structure LogInfo where
  level : String
  message : String
  meta : List (String × String)
deriving DecidableEq

/-- Embeds `LoggerLevels` (`src/logger_levels.rs`): a name → severity map. -/
structure LoggerLevels where
  levels : List (String × Nat)
deriving DecidableEq

/-- Embeds `LoggerLevels::get_severity`. -/
def LoggerLevels.getSeverity (l : LoggerLevels) (key : String) : Option Nat :=
  List.lookup key l.levels

/-- Embeds `LoggerLevels::default`: `error=0, warn=1, info=2, debug=3, trace=4`. -/
def defaultLevels : LoggerLevels :=
  ⟨[("error", 0), ("warn", 1), ("info", 2), ("debug", 3), ("trace", 4)]⟩

/-- The format capability (`logform::Format`): `transform(record) -> optional
record`, `none` meaning "suppress". -/
def Fmt := LogInfo → Option LogInfo

/-- Modelled from the spec: `logform::json()`, the external default format.
Its serialization behavior is irrelevant here; it never suppresses a record,
so it is modelled as the identity transform. -/
def defaultFormat : Fmt := fun e => some e

/-- Modelled from the spec: the external transport capability
(`winston_transport::Transport`) as the data the core consumes: the result
of its `query` operation and the result of its `flush` operation.  Its
`log` calls are recorded by the dispatch model instead. -/
structure TransportImpl where
  queryResult : Except String (List LogInfo)
  flushResult : Except String Unit

/-- Embeds `LoggerTransport` (`src/logger_transport.rs`): a transport plus optional
level and format overrides. -/
structure LoggerTransport where
  transport : TransportImpl
  level : Option String
  format : Option Fmt

/-- Embeds `BackpressureStrategy` (`src/logger_options.rs`). -/
inductive BackpressureStrategy where
  | DropOldest
  | Block
  | DropCurrent
deriving DecidableEq

/-- Embeds `LoggerOptions` (`src/logger_options.rs`); transport handles are `Nat`. -/
structure LoggerOptions where
  levels : Option LoggerLevels
  format : Option Fmt
  level : Option String
  transports : Option (List (Nat × LoggerTransport))
  channel_capacity : Option Nat
  backpressure_strategy : Option BackpressureStrategy

/-- Embeds `LoggerOptions::default`. -/
def defaultLoggerOptions : LoggerOptions :=
  { levels := some defaultLevels
    level := some "info"
    transports := some []
    format := some defaultFormat
    channel_capacity := some 1024
    backpressure_strategy := some BackpressureStrategy.Block }

/-- Embeds `SharedState` (`src/logger.rs`): current options, the pre-transport
buffer (front of the list = front of the `VecDeque`) and the cached minimum
required severity. -/
structure SharedState where
  options : LoggerOptions
  buffer : List LogInfo
  min_required_severity : Option Nat

/-- The per-transport accumulation step inside
`Logger::compute_min_severity`: fold one transport's optional level override
into the running maximum. -/
def foldTransportSeverity (levels : LoggerLevels) (minSeverity : Option Nat)
    (t : Nat × LoggerTransport) : Option Nat :=
  match t.2.level with
  | none => minSeverity
  | some transportLevel =>
    match levels.getSeverity transportLevel with
    | none => minSeverity
    | some transportSeverity =>
      some (match minSeverity with
            | none => transportSeverity
            | some cur => Nat.max cur transportSeverity)

/-- Embeds `Logger::compute_min_severity` (`src/logger.rs:130`). -/
def computeMinSeverity (options : LoggerOptions) : Option Nat :=
  match options.levels with
  | none => none
  | some levels =>
    let init := match options.level with
      | none => none
      | some lvl => levels.getSeverity lvl
    match options.transports with
    | none => init
    | some transports => transports.foldl (foldTransportSeverity levels) init

/-- Embeds `Logger::is_level_enabled` (`src/logger.rs:277`). -/
def isLevelEnabled (entryLevel : String) (state : SharedState) : Bool :=
  match state.min_required_severity with
  | none => false
  | some minRequired =>
    match state.options.levels with
    | none => false
    | some levels =>
      match levels.getSeverity entryLevel with
      | none => false
      | some entrySeverity => decide (minRequired ≥ entrySeverity)

/-- The candidate severities of spec §4.3, written from the spec's words:
the global level's severity (when it resolves) together with each
transport's level-override severity (when set and resolvable). -/
def specSeverityCandidates (options : LoggerOptions) (levels : LoggerLevels) :
    List Nat :=
  (match options.level with
   | none => none
   | some lvl => levels.getSeverity lvl).toList ++
  (options.transports.getD []).filterMap
    (fun t => match t.2.level with
              | none => none
              | some tl => levels.getSeverity tl)

/-- The guard of the worker's `Entry` arm
(`options.transports.as_ref().map_or(true, |t| t.is_empty())`). -/
def transportsEmptyOrAbsent (o : LoggerOptions) : Bool :=
  match o.transports with
  | none => true
  | some ts => ts.isEmpty

/-- The guard of the worker's `Flush` arm
(`options.transports.as_ref().map_or(false, |t| !t.is_empty())`). -/
def hasTransports (o : LoggerOptions) : Bool :=
  match o.transports with
  | none => false
  | some ts => !ts.isEmpty

/-- The effective-format selection inside `Logger::process_entry`:
transport override first, else the logger-wide format, else pass the record
through unchanged. -/
def formatFor (t : LoggerTransport) (options : LoggerOptions)
    (entry : LogInfo) : Option LogInfo :=
  match t.format, options.format with
  | some tf, some _ => tf entry
  | some tf, none => tf entry
  | none, some lf => lf entry
  | none, none => some entry

/-- The effective level name of a transport inside `Logger::process_entry`
(`transport.get_level().or_else(|| options.level.as_ref())`). -/
def effectiveLevelFor (t : LoggerTransport) (options : LoggerOptions) :
    Option String :=
  match t.level with
  | some l => some l
  | none => options.level

/-- The per-transport body of `Logger::process_entry`
(`src/logger.rs:246`): level filter (skipped entirely unless both a registry
and an effective level are present), then format, then delivery.  Returns
the `(handle, transformed record)` delivered to this transport, if any. -/
def transportDispatch (options : LoggerOptions) (entry : LogInfo)
    (ht : Nat × LoggerTransport) : Option (Nat × LogInfo) :=
  let levelPass : Bool :=
    match options.levels, effectiveLevelFor ht.2 options with
    | some levels, some eff =>
      match levels.getSeverity entry.level, levels.getSeverity eff with
      | some entrySev, some requiredSev => decide (entrySev ≤ requiredSev)
      | _, _ => false
    | _, _ => true
  if levelPass then
    (formatFor ht.2 options entry).map (fun msg => (ht.1, msg))
  else
    none

/-- Embeds `Logger::process_entry` (`src/logger.rs:239`): the deliveries performed
for one record, in transport order. -/
def processEntry (entry : LogInfo) (state : SharedState) :
    List (Nat × LogInfo) :=
  if entry.message.isEmpty && entry.meta.isEmpty then
    []
  else
    match state.options.transports with
    | none => []
    | some transports => transports.filterMap (transportDispatch state.options entry)

/-- Embeds `Logger::process_buffered_entries` (`src/logger.rs:233`): pop every
buffered record and run it through `process_entry` (the options do not
change while draining). -/
def processBufferedEntries (state : SharedState) :
    SharedState × List (Nat × LogInfo) :=
  ({ state with buffer := [] },
   state.buffer.flatMap (fun e => processEntry e state))

/-- The worker's `Entry` arm (`src/logger.rs:166`): buffer when no transport
is attached, otherwise drain the buffer and dispatch the record. -/
def workerHandleEntry (entry : LogInfo) (state : SharedState) :
    SharedState × List (Nat × LogInfo) :=
  if transportsEmptyOrAbsent state.options then
    ({ state with buffer := state.buffer ++ [entry] }, [])
  else
    let drained := processBufferedEntries state
    (drained.1, drained.2 ++ processEntry entry drained.1)

/-- The field merge of the worker's `Configure` arm (`src/logger.rs:181`):
each present field of the new options overwrites the current one. -/
def mergeOptions (newOptions current : LoggerOptions) : LoggerOptions :=
  { current with
    level := match newOptions.level with
      | some l => some l
      | none => current.level
    levels := match newOptions.levels with
      | some l => some l
      | none => current.levels
    transports := match newOptions.transports with
      | some t => some t
      | none => current.transports
    format := match newOptions.format with
      | some f => some f
      | none => current.format }

/-- The worker's `Configure` arm (`src/logger.rs:181`): merge, refresh the
severity cache (`Logger::refresh_effective_levels`), drain the buffer. -/
def workerHandleConfigure (newOptions : LoggerOptions) (state : SharedState) :
    SharedState × List (Nat × LogInfo) :=
  let merged := { state with options := mergeOptions newOptions state.options }
  let refreshed :=
    { merged with min_required_severity := computeMinSeverity merged.options }
  processBufferedEntries refreshed

/-- The worker's `Shutdown` arm (`src/logger.rs:201`): drain the buffer,
then break out of the loop. -/
def workerHandleShutdown (state : SharedState) :
    SharedState × List (Nat × LogInfo) :=
  processBufferedEntries state

/-- Outcome of the worker's `Flush` arm: the new state, the deliveries made
while draining, the (discarded) results of each transport's own flush, and
the completion signal given to the flush barrier. -/
structure FlushOutcome where
  state : SharedState
  dispatched : List (Nat × LogInfo)
  transportFlushResults : List (Except String Unit)
  signal : Bool

/-- The worker's `Flush` arm (`src/logger.rs:206`): only when the transport
list is non-empty, drain the buffer and flush every transport (results
ignored); in every case set the completion flag and wake the waiter. -/
def workerHandleFlush (state : SharedState) : FlushOutcome :=
  if hasTransports state.options then
    let drained := processBufferedEntries state
    { state := drained.1
      dispatched := drained.2
      transportFlushResults :=
        (state.options.transports.getD []).map
          (fun t => t.2.transport.flushResult)
      signal := true }
  else
    { state := state
      dispatched := []
      transportFlushResults := []
      signal := true }

/-- Embeds `Logger::add_transport` (`src/logger.rs:522`): append the wrapper under
the write lock; the buffer and the severity cache are not touched. -/
def addTransport (handle : Nat) (t : LoggerTransport) (state : SharedState) :
    SharedState :=
  { state with options :=
      { state.options with transports :=
          match state.options.transports with
          | some ts => some (ts ++ [(handle, t)])
          | none => some [(handle, t)] } }

/-- The removal of the first wrapper with a matching handle, as performed by
`Vec::remove` at the `position` found in `Logger::remove_transport`. -/
def removeFirstHandle (handle : Nat) :
    List (Nat × LoggerTransport) → Option (List (Nat × LoggerTransport))
  | [] => none
  | (h, t) :: rest =>
    if h = handle then some rest
    else (removeFirstHandle handle rest).map (fun l => (h, t) :: l)

/-- Embeds `Logger::remove_transport` (`src/logger.rs:538`): remove the wrapper
with the matching handle; returns `true` iff found. -/
def removeTransport (handle : Nat) (state : SharedState) :
    SharedState × Bool :=
  match state.options.transports with
  | none => (state, false)
  | some ts =>
    match removeFirstHandle handle ts with
    | none => (state, false)
    | some ts' =>
      ({ state with options := { state.options with transports := some ts' } },
       true)

/-- Embeds `Logger::configure` (`src/logger.rs:452`): clear the transport list,
merge the new options through the fallback chain new → current → default,
refresh the severity cache and drain the buffer. -/
def configureCall (newOptions : Option LoggerOptions) (state : SharedState) :
    SharedState × List (Nat × LogInfo) :=
  let cleared :=
    { state.options with
      transports := state.options.transports.map (fun _ => []) }
  let updated :=
    match newOptions with
    | none => cleared
    | some options =>
      { cleared with
        format := match options.format with
          | some f => some f
          | none => match cleared.format with
            | some f => some f
            | none => defaultLoggerOptions.format
        levels := match options.levels with
          | some l => some l
          | none => match cleared.levels with
            | some l => some l
            | none => defaultLoggerOptions.levels
        level := match options.level with
          | some l => some l
          | none => match cleared.level with
            | some l => some l
            | none => defaultLoggerOptions.level
        transports := match options.transports with
          | some ts => some ts
          | none => cleared.transports }
  let refreshed :=
    { state with
      options := updated
      min_required_severity := computeMinSeverity updated }
  processBufferedEntries refreshed

/-- Embeds `Logger::flush` (`src/logger.rs:419`) as a function of the closed flag
and whether the worker (the receiving end) is still alive: the result
returned to the caller, paired with whether the caller waited on the flush
barrier. -/
def flushCall (isClosed workerAlive : Bool) : Except String Unit × Bool :=
  if isClosed then (Except.ok (), false)
  else if workerAlive then (Except.ok (), true)
  else (Except.ok (), false)

/-- Embeds `LogMessage` (`src/logger.rs:70`). -/
inductive LogMessage where
  | Entry (e : LogInfo)
  | Configure (o : LoggerOptions)
  | Shutdown
  | Flush

/-- The bounded crossbeam channel, as a FIFO list (head = oldest) with a
capacity. -/
structure Channel where
  capacity : Nat
  queue : List LogMessage

/-- Embeds `Sender::try_send`: enqueue when there is room, report `false` when
full. -/
def trySend (c : Channel) (m : LogMessage) : Channel × Bool :=
  if c.queue.length < c.capacity then
    ({ c with queue := c.queue ++ [m] }, true)
  else
    (c, false)

/-- Embeds `Receiver::try_recv` from the producer side: steal the oldest message
when any. -/
def tryRecv (c : Channel) : Channel × Option LogMessage :=
  match c.queue with
  | [] => (c, none)
  | m :: rest => ({ c with queue := rest }, some m)

/-- Observable outcome of a submission on a full channel: the resulting
queue, the message stolen from the queue and discarded (diagnostic only),
whether the current record was discarded, and the messages re-sent through
a blocking send. -/
structure SubmitOutcome where
  channel : Channel
  droppedStolen : Option LogMessage
  droppedCurrent : Bool
  blockingSends : List LogMessage

/-- Embeds `Logger::drop_oldest_and_retry` (`src/logger.rs:371`): steal the oldest
message (whatever its variant) and discard it with a diagnostic, then retry
the non-blocking send of the record; if that still fails the record is
dropped.  No blocking send is ever issued. -/
def dropOldestAndRetry (c : Channel) (entry : LogInfo) : SubmitOutcome :=
  let stolen := tryRecv c
  let retried := trySend stolen.1 (LogMessage.Entry entry)
  { channel := retried.1
    droppedStolen := stolen.2
    droppedCurrent := !retried.2
    blockingSends := [] }

/-- Embeds `Logger::handle_full_channel` (`src/logger.rs:343`). -/
def handleFullChannel (strategy : BackpressureStrategy) (c : Channel)
    (entry : LogInfo) : SubmitOutcome :=
  match strategy with
  | BackpressureStrategy.DropOldest => dropOldestAndRetry c entry
  | BackpressureStrategy.Block =>
    { channel := { c with queue := c.queue ++ [LogMessage.Entry entry] }
      droppedStolen := none
      droppedCurrent := false
      blockingSends := [LogMessage.Entry entry] }
  | BackpressureStrategy.DropCurrent =>
    { channel := c
      droppedStolen := none
      droppedCurrent := true
      blockingSends := [] }

/-- Modelled from the spec: `winston_transport::LogQuery`, the query input
type of the external transport crate (not under `src/`).  Fields per §4.7:
optional from/until timestamp bounds, optional limit and start offset,
order, a level allow-list, a projection field list and an optional search
term.  Timestamps are the string values stored under the `timestamp`
metadata key. -/
structure LogQuery where
  fromTs : Option String
  untilTs : Option String
  limit : Option Nat
  start : Option Nat
  descending : Bool
  levels : List String
  fields : List String
  searchTerm : Option String

/-- One-character-list prefix test, used to model substring search. -/
def charsLeading : List Char → List Char → Bool
  | [], _ => true
  | _ :: _, [] => false
  | a :: pre, b :: l => a = b && charsLeading pre l

/-- Substring containment on character lists. -/
def charsWithin (sub : List Char) : List Char → Bool
  | [] => sub.isEmpty
  | b :: l => charsLeading sub (b :: l) || charsWithin sub l

/-- Modelled from the spec: the `matches` predicate of
`winston_transport::LogQuery` per §4.7 — the level passes the allow-list
when non-empty; the `timestamp` metadata value falls within the bounds when
they are set; the message contains the search term when set; every
projection field is present in the metadata. -/
def LogQuery.matches (q : LogQuery) (entry : LogInfo) : Bool :=
  (q.levels.isEmpty || q.levels.contains entry.level) &&
  (match q.fromTs with
   | none => true
   | some fromTs =>
     match List.lookup "timestamp" entry.meta with
     | none => false
     | some ts => decide (fromTs ≤ ts)) &&
  (match q.untilTs with
   | none => true
   | some untilTs =>
     match List.lookup "timestamp" entry.meta with
     | none => false
     | some ts => decide (ts ≤ untilTs)) &&
  (match q.searchTerm with
   | none => true
   | some term => charsWithin term.data entry.message.data) &&
  q.fields.all (fun f => (List.lookup f entry.meta).isSome)

/-- The transport loop of `Logger::query` (`src/logger.rs:302`): extend the
accumulated results with each transport's query result, aborting on the
first error. -/
def queryLoop (ts : List (Nat × LoggerTransport)) (results : List LogInfo) :
    Except String (List LogInfo) :=
  match ts with
  | [] => Except.ok results
  | t :: rest =>
    match t.2.transport.queryResult with
    | Except.ok logs => queryLoop rest (results ++ logs)
    | Except.error e => Except.error ("Query failed: " ++ e)

/-- Embeds `Logger::query` (`src/logger.rs:288`): buffered records matching the
query, then each transport's results in order. -/
def queryCall (q : LogQuery) (state : SharedState) :
    Except String (List LogInfo) :=
  let results := state.buffer.filter (fun e => q.matches e)
  match state.options.transports with
  | none => Except.ok results
  | some ts => queryLoop ts results

/-- Compositional form of the transport query results: the concatenation of
every transport's result, or the first error. -/
def gatherTransportLogs : List (Nat × LoggerTransport) →
    Except String (List LogInfo)
  | [] => Except.ok []
  | t :: rest =>
    match t.2.transport.queryResult with
    | Except.ok logs =>
      (gatherTransportLogs rest).map (fun more => logs ++ more)
    | Except.error e => Except.error ("Query failed: " ++ e)

/-! Concrete fixtures used by witnesses and counterexamples. -/

/-- A transport whose query succeeds with no records and whose flush
succeeds. -/
def tImplOk : TransportImpl := ⟨Except.ok [], Except.ok ()⟩

/-- A wrapper with no level and no format override. -/
def tPlain : LoggerTransport := ⟨tImplOk, none, none⟩

/-- A wrapper whose level override is `"trace"`. -/
def tTrace : LoggerTransport := ⟨tImplOk, some "trace", none⟩

/-- A plain info-level record. -/
def rInfo : LogInfo := ⟨"info", "hello", []⟩

/-- A record whose level name is absent from the default registry. -/
def rVerbose : LogInfo := ⟨"verbose", "x", []⟩

/-- Default options with the global level set to `"warn"`. -/
def wOptions : LoggerOptions := { defaultLoggerOptions with level := some "warn" }

/-- A fresh logger state over `wOptions`, as `Logger::new` builds it. -/
def st0 : SharedState := ⟨wOptions, [], computeMinSeverity wOptions⟩

/-- A state with one buffered record and an empty transport list. -/
def stBuf : SharedState :=
  ⟨defaultLoggerOptions, [rInfo], computeMinSeverity defaultLoggerOptions⟩

/-! Helper lemmas. -/

/-- The transport fold of `compute_min_severity` computes the maximum of
the initial candidate and every resolvable transport-override severity. -/
lemma foldSeverity_eq_max (levels : LoggerLevels)
    (ts : List (Nat × LoggerTransport)) (init : Option Nat) :
    ts.foldl (foldTransportSeverity levels) init
      = (init.toList ++ ts.filterMap
          (fun t => match t.2.level with
                    | none => none
                    | some tl => levels.getSeverity tl)).max? := by
  induction ts generalizing init with
  | nil => cases init <;> simp [List.max?]
  | cons t rest ih =>
    rw [List.foldl_cons, ih]
    cases h1 : t.2.level with
    | none => simp [foldTransportSeverity, h1, List.filterMap_cons]
    | some tl =>
      cases h2 : levels.getSeverity tl with
      | none => simp [foldTransportSeverity, h1, h2, List.filterMap_cons]
      | some s =>
        cases init with
        | none =>
          simp [foldTransportSeverity, h1, h2, List.filterMap_cons,
                Option.toList]
        | some a =>
          simp only [foldTransportSeverity, h1, h2, List.filterMap_cons,
                     Option.toList]
          rfl

/-- A record is dispatched nowhere when the transport list is empty or
absent. -/
lemma processEntry_eq_nil_of_no_transports (e : LogInfo) (state : SharedState)
    (h : transportsEmptyOrAbsent state.options = true) :
    processEntry e state = [] := by
  unfold processEntry
  cases hts : state.options.transports with
  | none => split <;> rfl
  | some ts =>
    unfold transportsEmptyOrAbsent at h
    rw [hts] at h
    have hnil : ts = [] := List.isEmpty_iff.mp h
    subst hnil
    split <;> simp

/-- Claim C1: `compute_min_severity` returns the maximum over the set
containing the registry severity of the global level name (when it
resolves) and the registry severity of each transport's level override
(when set and resolvable); and, on a state whose cache holds that value, a
record whose level has registry severity `s` passes `is_level_enabled` iff
`s` is at most the cached maximum. -/
theorem c1_min_severity_and_gate (options : LoggerOptions)
    (levels : LoggerLevels) (lvl : String) (s : Nat) (buffer : List LogInfo)
    (hlev : options.levels = some levels)
    (hs : levels.getSeverity lvl = some s) :
    computeMinSeverity options = (specSeverityCandidates options levels).max?
    ∧ (isLevelEnabled lvl ⟨options, buffer, computeMinSeverity options⟩ = true
        ↔ ∃ m, computeMinSeverity options = some m ∧ s ≤ m) := by
  have hmax : computeMinSeverity options
      = (specSeverityCandidates options levels).max? := by
    unfold computeMinSeverity specSeverityCandidates
    rw [hlev]
    cases hts : options.transports with
    | none =>
      simp only [Option.getD_none, List.filterMap_nil, List.append_nil]
      cases hg : (match options.level with
                  | none => none
                  | some lvl => levels.getSeverity lvl) <;>
        simp [hg, List.max?]
    | some ts =>
      simp only [Option.getD_some]
      exact foldSeverity_eq_max levels ts _
  refine ⟨hmax, ?_⟩
  cases hm : computeMinSeverity options with
  | none => simp [isLevelEnabled, hm]
  | some m =>
    simp only [isLevelEnabled, hm, hlev, hs]
    constructor
    · intro h
      exact ⟨m, rfl, by simpa [ge_iff_le] using of_decide_eq_true h⟩
    · rintro ⟨m', hm', hle⟩
      cases hm'
      exact decide_eq_true (by simpa [ge_iff_le] using hle)

/-- Claim C1 witness: with the default registry, global level `"warn"` and
one transport whose override is `"trace"`, the computed cache is the
maximum candidate severity and an `"info"` record (severity 2) passes the
gate. -/
theorem c1_witness :
    computeMinSeverity { wOptions with transports := some [(0, tTrace)] }
      = (specSeverityCandidates
          { wOptions with transports := some [(0, tTrace)] }
          defaultLevels).max?
    ∧ (isLevelEnabled "info"
        ⟨{ wOptions with transports := some [(0, tTrace)] }, [],
          computeMinSeverity
            { wOptions with transports := some [(0, tTrace)] }⟩ = true
        ↔ ∃ m, computeMinSeverity
            { wOptions with transports := some [(0, tTrace)] } = some m
            ∧ 2 ≤ m) :=
  c1_min_severity_and_gate
    { wOptions with transports := some [(0, tTrace)] }
    defaultLevels "info" 2 [] rfl rfl

/-- Claim C2 counterexample: starting from a fresh logger whose global
level is `"warn"` (cache `some 1`), `add_transport` of a wrapper overriding
to `"trace"` leaves the cache at `some 1` while `compute_min_severity` of
the resulting options is `some 4` — the cache is not recomputed. -/
theorem c2_add_transport_stale_cache :
    (addTransport 0 tTrace st0).min_required_severity
      ≠ computeMinSeverity (addTransport 0 tTrace st0).options := by
  decide

/-- Claim C2 amended: the effective-severity cache is recomputed by
`configure` and by the worker's Configure arm (after each, the cache equals
`compute_min_severity` of the resulting options), but `add_transport` and
`remove_transport` leave the cached value unchanged, so it can go stale
until the next reconfiguration. -/
theorem c2_cache_recompute_amended :
    (∀ newOptions state,
        ((configureCall newOptions state).1).min_required_severity
          = computeMinSeverity ((configureCall newOptions state).1).options)
    ∧ (∀ newOptions state,
        ((workerHandleConfigure newOptions state).1).min_required_severity
          = computeMinSeverity
              ((workerHandleConfigure newOptions state).1).options)
    ∧ (∀ handle t state,
        (addTransport handle t state).min_required_severity
          = state.min_required_severity)
    ∧ (∀ handle state,
        ((removeTransport handle state).1).min_required_severity
          = state.min_required_severity) := by
  refine ⟨fun newOptions state => rfl, fun newOptions state => rfl,
          fun handle t state => rfl, fun handle state => ?_⟩
  unfold removeTransport
  cases hts : state.options.transports with
  | none => rfl
  | some ts => cases h : removeFirstHandle handle ts <;> simp [h]

/-- Claim C3 counterexample: from a state with one buffered record and an
empty transport list, `add_transport` leaves the record buffered while the
transport list becomes non-empty (so the buffer is not drained and the
"non-empty only while the transport list is empty" invariant breaks), and
the worker's Flush arm on the original state (empty transport list) does
not drain the buffer either. -/
theorem c3_buffer_not_drained :
    ((addTransport 5 tPlain stBuf).buffer = [rInfo]
      ∧ hasTransports (addTransport 5 tPlain stBuf).options = true)
    ∧ (workerHandleFlush stBuf).state.buffer = [rInfo] := by
  refine ⟨⟨rfl, rfl⟩, rfl⟩

/-- Claim C3 amended: records are buffered by the worker's Entry arm
exactly when the transport list is empty or absent (and the Entry arm
drains the buffer otherwise); the Configure and Shutdown arms drain the
buffer, and the Flush arm drains it only when the transport list is
non-empty; `add_transport` leaves the buffer untouched, so the buffer can
stay non-empty after a transport is added until the worker processes its
next message. -/
theorem c3_buffer_amended :
    (∀ e state, (workerHandleEntry e state).1.buffer
        = if transportsEmptyOrAbsent state.options then state.buffer ++ [e]
          else [])
    ∧ (∀ state, (workerHandleFlush state).state.buffer
        = if hasTransports state.options then [] else state.buffer)
    ∧ (∀ handle t state, (addTransport handle t state).buffer = state.buffer)
    ∧ (∀ state, (workerHandleShutdown state).1.buffer = [])
    ∧ (∀ newOptions state,
        (workerHandleConfigure newOptions state).1.buffer = []) := by
  refine ⟨fun e state => ?_, fun state => ?_, fun handle t state => rfl,
          fun state => rfl, fun newOptions state => rfl⟩
  · unfold workerHandleEntry
    cases h : transportsEmptyOrAbsent state.options <;> simp [h, processBufferedEntries]
  · unfold workerHandleFlush
    cases h : hasTransports state.options <;> simp [h, processBufferedEntries]

/-- A state with one transport attached and one buffered record. -/
def stC : SharedState :=
  ⟨{ defaultLoggerOptions with transports := some [(0, tPlain)] },
   [rInfo], some 2⟩

/-- Claim C4 counterexample: on a state with one transport and one buffered
record, `configure(None)` empties the transport list and drains (discards)
the buffer — it is not a no-op. -/
theorem c4_configure_none_not_noop :
    (configureCall none stC).1.options.transports ≠ stC.options.transports
    ∧ (configureCall none stC).1.buffer ≠ stC.buffer := by
  constructor
  · intro h
    have h0 : (configureCall none stC).1.options.transports = some [] := rfl
    have h1 : stC.options.transports = some [(0, tPlain)] := rfl
    rw [h0, h1] at h
    have h2 : ([] : List (Nat × LoggerTransport)) = [(0, tPlain)] :=
      Option.some.inj h
    exact absurd h2 (by simp)
  · intro h
    have h0 : (configureCall none stC).1.buffer = [] := rfl
    have h1 : stC.buffer = [rInfo] := rfl
    rw [h0, h1] at h
    exact absurd h (by decide)

/-- Claim C4 amended: `configure(None)` keeps the level, the registry and
the format, but clears the transport list when one is present, recomputes
the severity cache, and drains the pre-transport buffer without delivering
any buffered record anywhere (the transport list is empty by then, so the
records are discarded). -/
theorem c4_configure_none_amended (state : SharedState) :
    (configureCall none state).1.options.level = state.options.level
    ∧ (configureCall none state).1.options.levels = state.options.levels
    ∧ (configureCall none state).1.options.format = state.options.format
    ∧ (configureCall none state).1.options.transports
        = state.options.transports.map (fun _ => [])
    ∧ (configureCall none state).1.buffer = []
    ∧ (configureCall none state).1.min_required_severity
        = computeMinSeverity (configureCall none state).1.options
    ∧ (configureCall none state).2 = [] := by
  refine ⟨rfl, rfl, rfl, rfl, rfl, rfl, ?_⟩
  simp only [configureCall, processBufferedEntries]
  rw [List.flatMap_eq_nil_iff]
  intro e he
  apply processEntry_eq_nil_of_no_transports
  unfold transportsEmptyOrAbsent
  cases hts : state.options.transports <;> simp [hts]

/-- A full capacity-1 channel whose only (hence oldest) pending message is
the Flush control message. -/
def fullFlushChannel : Channel := ⟨1, [LogMessage.Flush]⟩

/-- Claim C5, behavior of the code at the failing input: under DropOldest,
when the full queue's oldest message is a Flush control message,
`drop_oldest_and_retry` steals and discards that control message and issues
no blocking send — the control message is simply dropped. -/
theorem c5_drop_oldest_discards_control :
    (dropOldestAndRetry fullFlushChannel rInfo).droppedStolen
        = some LogMessage.Flush
    ∧ (dropOldestAndRetry fullFlushChannel rInfo).blockingSends = []
    ∧ (dropOldestAndRetry fullFlushChannel rInfo).channel.queue
        = [LogMessage.Entry rInfo] :=
  ⟨rfl, rfl, rfl⟩

/-- The accumulator-passing transport loop of `Logger::query` gathers the
same results as the compositional concatenation of per-transport results. -/
lemma queryLoop_eq_gather (ts : List (Nat × LoggerTransport))
    (acc : List LogInfo) :
    queryLoop ts acc
      = (gatherTransportLogs ts).map (fun l => acc ++ l) := by
  induction ts generalizing acc with
  | nil => simp [queryLoop, gatherTransportLogs, Except.map]
  | cons t rest ih =>
    unfold queryLoop gatherTransportLogs
    cases t.2.transport.queryResult with
    | error e => rfl
    | ok logs =>
      dsimp only
      rw [ih]
      cases gatherTransportLogs rest <;> simp [Except.map]

/-- Two buffered records, both matching the unrestricted query below. -/
def r1 : LogInfo := ⟨"info", "m1", []⟩

/-- Second buffered record for the query counterexample. -/
def r2 : LogInfo := ⟨"info", "m2", []⟩

/-- A query with `limit = 1` and no other restriction. -/
def q0 : LogQuery := ⟨none, none, some 1, some 0, true, [], [], none⟩

/-- A state with two buffered records and an empty transport list. -/
def stQ : SharedState := ⟨defaultLoggerOptions, [r1, r2], none⟩

/-- Claim C6 counterexample: with two matching buffered records and
`limit = 1`, `Logger::query` returns both records — no limit (nor sort,
start offset or projection) is applied. -/
theorem c6_query_ignores_limit :
    queryCall q0 stQ = Except.ok [r1, r2] ∧ q0.limit = some 1 :=
  ⟨rfl, rfl⟩

/-- Claim C6 amended: for every query input, `Logger::query` returns the
buffered records matching the query followed by the concatenation of each
transport's query results in transport order, or the first transport error;
it applies no sorting, no start offset, no limit and no field
projection. -/
theorem c6_query_amended (q : LogQuery) (state : SharedState) :
    queryCall q state
      = (gatherTransportLogs (state.options.transports.getD [])).map
          (fun l => state.buffer.filter (fun e => q.matches e) ++ l) := by
  unfold queryCall
  cases hts : state.options.transports with
  | none => simp [gatherTransportLogs, Except.map]
  | some ts => simp [queryLoop_eq_gather]

/-- A state whose registry is the default one but whose global level is
unset, with one transport that has no level override. -/
def stBypass : SharedState :=
  ⟨{ levels := some defaultLevels
     format := none
     level := none
     transports := some [(0, tPlain)]
     channel_capacity := none
     backpressure_strategy := none },
   [], none⟩

/-- Claim C7 counterexample: the record level `"verbose"` is absent from
the default registry, yet with an unset global level and a transport
without override the level filter is bypassed and the record is delivered
to that transport — not to zero transports. -/
theorem c7_unregistered_level_delivered :
    stBypass.options.levels = some defaultLevels
    ∧ defaultLevels.getSeverity "verbose" = none
    ∧ processEntry rVerbose stBypass = [(0, rVerbose)] :=
  ⟨rfl, rfl, rfl⟩

/-- Claim C7 amended: for each transport the effective level name is the
wrapper's override else the global level.  When the registry is present and
the effective level is defined, the transport is skipped when the record's
severity is numerically greater than the effective threshold and also when
a severity lookup fails for either level; consequently, a record whose
level name is absent from the registry is delivered to zero transports
among the transports whose effective level is defined.  (When the effective
level is undefined the filter is bypassed; see C9.) -/
theorem c7_filter_amended (options : LoggerOptions) (entry : LogInfo)
    (levels : LoggerLevels) (hlev : options.levels = some levels) :
    (∀ h t eff entrySev requiredSev,
        effectiveLevelFor t options = some eff →
        levels.getSeverity entry.level = some entrySev →
        levels.getSeverity eff = some requiredSev →
        requiredSev < entrySev →
        transportDispatch options entry (h, t) = none)
    ∧ (∀ h t eff,
        effectiveLevelFor t options = some eff →
        (levels.getSeverity entry.level = none
          ∨ levels.getSeverity eff = none) →
        transportDispatch options entry (h, t) = none)
    ∧ (levels.getSeverity entry.level = none →
        ∀ ts buffer cache, options.transports = some ts →
          (∀ p ∈ ts, (effectiveLevelFor p.2 options).isSome = true) →
          processEntry entry ⟨options, buffer, cache⟩ = []) := by
  have hskip : ∀ h t eff, effectiveLevelFor t options = some eff →
      (match levels.getSeverity entry.level, levels.getSeverity eff with
       | some entrySev, some requiredSev => decide (entrySev ≤ requiredSev)
       | _, _ => false) = false →
      transportDispatch options entry (h, t) = none := by
    intro h t eff heff hpass
    unfold transportDispatch
    rw [hlev, heff]
    dsimp only
    rw [hpass]
    rfl
  refine ⟨?_, ?_, ?_⟩
  · intro h t eff entrySev requiredSev heff he hr hlt
    apply hskip h t eff heff
    rw [he, hr]
    simpa using Nat.not_le_of_lt hlt
  · intro h t eff heff hnone
    apply hskip h t eff heff
    rcases hnone with hn | hn
    · rw [hn]
    · rw [hn]
      cases levels.getSeverity entry.level <;> rfl
  · intro hmiss ts buffer cache hts hall
    unfold processEntry
    rw [hts]
    split
    · rfl
    · rw [List.filterMap_eq_nil_iff]
      intro p hp
      rcases Option.isSome_iff_exists.mp (hall p hp) with ⟨eff, heff⟩
      apply hskip p.1 p.2 eff heff
      rw [hmiss]

/-- Claim C7 witness: with the default registry and global level `"warn"`,
(a) a transport overriding to `"trace"` skips nothing here, but the plain
transport (effective level `"warn"`, threshold 1) skips an `"info"` record
(severity 2); (b) the `"verbose"` record, absent from the registry, is
skipped by the `"trace"`-override transport; (c) it is delivered to zero
transports of a list where every effective level is defined. -/
theorem c7_filter_witness :
    transportDispatch wOptions rInfo (1, tPlain) = none
    ∧ transportDispatch wOptions rVerbose (0, tTrace) = none
    ∧ processEntry rVerbose
        ⟨{ wOptions with transports := some [(0, tTrace)] }, [], none⟩
        = [] := by
  refine ⟨?_, ?_, ?_⟩
  · exact (c7_filter_amended wOptions rInfo defaultLevels rfl).1
      1 tPlain "warn" 2 1 rfl rfl rfl (by decide)
  · exact (c7_filter_amended wOptions rVerbose defaultLevels rfl).2.1
      0 tTrace "trace" rfl (Or.inl rfl)
  · exact (c7_filter_amended { wOptions with transports := some [(0, tTrace)] }
      rVerbose defaultLevels rfl).2.2
      rfl [(0, tTrace)] [] none rfl
      (by intro p hp; rw [List.mem_singleton.mp hp]; rfl)

/-- Claim C8: `Logger::flush` always returns success — it waits on the
flush barrier exactly when the logger is open and the worker is alive, and
short-circuits to `Ok` without waiting when closed or when the worker is
gone; and the worker's Flush arm signals completion unconditionally, with
the transports' own flush results (errors included) discarded. -/
theorem c8_flush_always_ok :
    (∀ isClosed workerAlive,
        flushCall isClosed workerAlive
          = (Except.ok (), !isClosed && workerAlive))
    ∧ (∀ state, (workerHandleFlush state).signal = true) := by
  constructor
  · intro isClosed workerAlive
    cases isClosed <;> cases workerAlive <;> rfl
  · intro state
    unfold workerHandleFlush
    split <;> rfl

/-- A state holding no registry at all, with one transport without
overrides. -/
def stNoReg : SharedState :=
  ⟨{ levels := none
     format := none
     level := some "info"
     transports := some [(7, tPlain)]
     channel_capacity := none
     backpressure_strategy := none },
   [], none⟩

/-- Claim C9: when the options hold no registry, or the transport has no
level override and the global level is unset, the level-filter block is
bypassed: a non-degenerate record reaches the format step of that (sole)
transport and is delivered exactly when the effective format keeps it,
regardless of its level. -/
theorem c9_filter_bypass (state : SharedState) (entry : LogInfo) (h : Nat)
    (t : LoggerTransport)
    (hnd : (entry.message.isEmpty && entry.meta.isEmpty) = false)
    (hts : state.options.transports = some [(h, t)])
    (hbypass : state.options.levels = none
        ∨ (t.level = none ∧ state.options.level = none)) :
    processEntry entry state
      = ((formatFor t state.options entry).map (fun m => (h, m))).toList := by
  have hpass : transportDispatch state.options entry (h, t)
      = (formatFor t state.options entry).map (fun m => (h, m)) := by
    unfold transportDispatch
    rcases hbypass with hn | ⟨htl, hgl⟩
    · rw [hn]
      rfl
    · unfold effectiveLevelFor
      rw [htl, hgl]
      cases state.options.levels <;> rfl
  unfold processEntry
  rw [hnd, hts]
  dsimp only [Bool.false_eq_true, if_false]
  rw [List.filterMap_cons, hpass, List.filterMap_nil]
  cases formatFor t state.options entry <;> rfl

/-- Claim C9 witness: with no registry at all, the `"info"` record is
delivered to the plain transport unchanged. -/
theorem c9_filter_witness :
    processEntry rInfo stNoReg
      = ((formatFor tPlain stNoReg.options rInfo).map
          (fun m => ((7 : Nat), m))).toList :=
  c9_filter_bypass stNoReg rInfo 7 tPlain (by decide) rfl (Or.inl rfl)

/-- Claim C10: when the worker processes Shutdown while the transport list
is empty or absent, it still empties the pre-transport buffer, and no
record is delivered anywhere — the buffered records are silently
discarded. -/
theorem c10_shutdown_discards_buffer (state : SharedState)
    (hempty : transportsEmptyOrAbsent state.options = true) :
    (workerHandleShutdown state).1.buffer = []
    ∧ (workerHandleShutdown state).2 = [] := by
  refine ⟨rfl, ?_⟩
  show (processBufferedEntries state).2 = []
  unfold processBufferedEntries
  rw [List.flatMap_eq_nil_iff]
  intro e he
  exact processEntry_eq_nil_of_no_transports e state hempty

/-- Claim C10 witness: a state with one buffered record and an empty
transport list: Shutdown empties the buffer and delivers nothing. -/
theorem c10_shutdown_witness :
    (workerHandleShutdown stBuf).1.buffer = []
    ∧ (workerHandleShutdown stBuf).2 = [] :=
  c10_shutdown_discards_buffer stBuf rfl

end Winston
